import Mathlib

/-!
Verification of the ZmodADC calibration module (src/ZmodADC.c) of dpmutil.

Embedding conventions:
* The C code computes with IEEE-754 floating-point values.  Here float values
  and float arithmetic are embedded as exact rational arithmetic over `ℚ`.
* The C cast `(int32_t)` of a floating value truncates toward zero; it is
  embedded as `cIntCast`.
* The C mask `ival &= (1 << 18) - 1` keeps the low 18 bits of the
  two's-complement representation of `ival`; on the represented integers this
  is exactly reduction modulo `2 ^ 18` (Euclidean remainder, always
  non-negative), which is how it is embedded.
* The printing done by `FDisplayZmodADCCal` is embedded as a list of
  structured lines, and its collaborators (`SyzygyI2cRead`, `strftime`, the
  process-wide verbosity flag) are passed as explicit parameters.
-/

/-- Constant `ADC1410_IDEAL_RANGE_ADC_HIGH` from ZmodADC.c. -/
def ADC1410_IDEAL_RANGE_ADC_HIGH : ℚ := 1.0

/-- Constant `ADC1410_IDEAL_RANGE_ADC_LOW` from ZmodADC.c. -/
def ADC1410_IDEAL_RANGE_ADC_LOW : ℚ := 25.0

/-- Constant `ADC1410_REAL_RANGE_ADC_HIGH` from ZmodADC.c. -/
def ADC1410_REAL_RANGE_ADC_HIGH : ℚ := 1.086

/-- Constant `ADC1410_REAL_RANGE_ADC_LOW` from ZmodADC.c. -/
def ADC1410_REAL_RANGE_ADC_LOW : ℚ := 26.25

/-- Truncation toward zero: the behavior of C's `(int32_t)` cast applied to a
floating-point value. -/
def cIntCast (q : ℚ) : ℤ := if q < 0 then ⌈q⌉ else ⌊q⌋

/-- The local `fval` computed by `ComputeMultCoefADC1410`:
`(fHighGain ? (REAL_HIGH/IDEAL_HIGH) : (REAL_LOW/IDEAL_LOW)) * (1 + cg) * (float)(1<<16)`. -/
def fvalMultADC1410 (cg : ℚ) (fHighGain : Bool) : ℚ :=
  (if fHighGain then ADC1410_REAL_RANGE_ADC_HIGH / ADC1410_IDEAL_RANGE_ADC_HIGH
   else ADC1410_REAL_RANGE_ADC_LOW / ADC1410_IDEAL_RANGE_ADC_LOW) * (1 + cg) * 2 ^ 16

/-- The local `ival` of `ComputeMultCoefADC1410` before the mask step:
`ival = (int32_t)(fval + 0.5)`. -/
def ivalMultADC1410 (cg : ℚ) (fHighGain : Bool) : ℤ :=
  cIntCast (fvalMultADC1410 cg fHighGain + 1 / 2)

/-- `ComputeMultCoefADC1410` from ZmodADC.c: the rounded value masked by
`ival &= (1<<18) - 1`, i.e. reduced modulo `2 ^ 18`. -/
def ComputeMultCoefADC1410 (cg : ℚ) (fHighGain : Bool) : ℤ :=
  ivalMultADC1410 cg fHighGain % 2 ^ 18

/-- The local `fval` computed by `ComputeAddCoefADC1410`:
`ca / (fHighGain ? IDEAL_HIGH : IDEAL_LOW) * (float)(1<<17)`. -/
def fvalAddADC1410 (ca : ℚ) (fHighGain : Bool) : ℚ :=
  ca / (if fHighGain then ADC1410_IDEAL_RANGE_ADC_HIGH else ADC1410_IDEAL_RANGE_ADC_LOW) * 2 ^ 17

/-- The local `ival` of `ComputeAddCoefADC1410` before the mask step:
`ival = (int32_t)(fval + 0.5)`. -/
def ivalAddADC1410 (ca : ℚ) (fHighGain : Bool) : ℤ :=
  cIntCast (fvalAddADC1410 ca fHighGain + 1 / 2)

/-- `ComputeAddCoefADC1410` from ZmodADC.c: the rounded value masked by
`ival &= (1<<18) - 1`, i.e. reduced modulo `2 ^ 18`. -/
def ComputeAddCoefADC1410 (ca : ℚ) (fHighGain : Bool) : ℤ :=
  ivalAddADC1410 ca fHighGain % 2 ^ 18

/-- Spec-side formula for the multiplicative coefficient, written from the
spec's own words (spec 4.2): Ratio = actualFullScale/idealFullScale
(26.25/25.0 for Low, 1.086/1.0 for High); Scaled = Ratio × (1 + gainError) ×
2^16; round by adding 0.5 and truncating toward zero; mask to the low 18 bits
(two's-complement bit retention). -/
def specMultCoef (gainError : ℚ) (highGain : Bool) : ℤ :=
  cIntCast ((if highGain then (1.086 : ℚ) / 1.0 else (26.25 : ℚ) / 25.0)
    * (1 + gainError) * 2 ^ 16 + 1 / 2) % 2 ^ 18

/-- Spec-side formula for the additive coefficient, written from the spec's own
words (spec 4.2): Scaled = (offsetError / idealFullScale) × 2^17 with
idealFullScale 25.0 for Low and 1.0 for High, then the identical rounding and
mask steps; no actual/ideal trim ratio appears. -/
def specAddCoef (offsetError : ℚ) (highGain : Bool) : ℤ :=
  cIntCast (offsetError / (if highGain then (1.0 : ℚ) else (25.0 : ℚ)) * 2 ^ 17 + 1 / 2) % 2 ^ 18

/-- Modelled from the spec: the `ZMOD_ADC_CAL` structure is declared in
ZmodADC.h, which is not in src.  The fields ZmodADC.c uses are the raw
timestamp `date` and the 2×2×2 array `cal` of single-precision floats indexed
by channel × gain range × {gain, offset}, embedded as rationals. -/
structure ZMOD_ADC_CAL where
  date : ℕ
  cal : Fin 2 → Fin 2 → Fin 2 → ℚ

/-- Modelled from the spec: `sizeof(ZMOD_ADC_CAL)` with ZmodADC.h not in src.
Per the spec's data model the serialized record is one timestamp plus eight
32-bit floats; the claims only use this value as the single expected byte
count, never its numeric magnitude. -/
def sizeofZMOD_ADC_CAL : ℕ := 36

/-- Modelled from the spec: `addrAdcFactCalStart`, the device-fixed start
offset of the factory calibration region, is defined in ZmodADC.h which is not
in src; the spec fixes only that the two region offsets are distinct. -/
def addrAdcFactCalStart : ℕ := 0

/-- Modelled from the spec: `addrAdcUserCalStart`, the device-fixed start
offset of the user calibration region, is defined in ZmodADC.h which is not in
src; the spec fixes only that the two region offsets are distinct. -/
def addrAdcUserCalStart : ℕ := 1

/-- Outcome of one `SyzygyI2cRead` bus transaction as observed by
ZmodADC.c: either the full record was read, or the call failed having
transferred `cbRead` bytes. -/
inductive I2cReadResult where
  | ok (adcal : ZMOD_ADC_CAL)
  | fail (cbRead : ℕ)

/-- One line of the stdout report produced by `FDisplayZmodADCCal`.
`errReadFail` is the "failed to read ... calibration from 0x%02X" line
(`fUser` distinguishes the user-region message from the factory one),
`errBytes` the "received %d of %d bytes" line, `calDate` the formatted
timestamp line, `rawVal` one of the eight `CHAN_<n>_<LG|HG>_<GAIN|OFFSET>`
lines and `coefVal` one of the eight `Ch<n><Lg|Hg>Coef<Mult|Add>Static`
lines. -/
inductive CalLine where
  | errReadFail (fUser : Bool) (addrI2cSlave : ℕ)
  | errBytes (received expected : ℕ)
  | calDate (fUser : Bool) (date : ℕ)
  | rawVal (chan gainRange kind : Fin 2) (v : ℚ)
  | coefVal (chan gainRange : Fin 2) (fMult : Bool) (v : ℤ)

/-- The eight raw-value lines printed for one record, in source order
`cal[0][0][0] ... cal[1][1][1]`. -/
def rawLines (adcal : ZMOD_ADC_CAL) : List CalLine :=
  [ .rawVal 0 0 0 (adcal.cal 0 0 0), .rawVal 0 0 1 (adcal.cal 0 0 1),
    .rawVal 0 1 0 (adcal.cal 0 1 0), .rawVal 0 1 1 (adcal.cal 0 1 1),
    .rawVal 1 0 0 (adcal.cal 1 0 0), .rawVal 1 0 1 (adcal.cal 1 0 1),
    .rawVal 1 1 0 (adcal.cal 1 1 0), .rawVal 1 1 1 (adcal.cal 1 1 1) ]

/-- The eight coefficient lines printed for one record, in source order:
multiplicative/additive alternating, low gain (`fFalse`) for gain-range index
0 and high gain (`fTrue`) for gain-range index 1. -/
def coefLines (adcal : ZMOD_ADC_CAL) : List CalLine :=
  [ .coefVal 0 0 true  (ComputeMultCoefADC1410 (adcal.cal 0 0 0) false),
    .coefVal 0 0 false (ComputeAddCoefADC1410 (adcal.cal 0 0 1) false),
    .coefVal 0 1 true  (ComputeMultCoefADC1410 (adcal.cal 0 1 0) true),
    .coefVal 0 1 false (ComputeAddCoefADC1410 (adcal.cal 0 1 1) true),
    .coefVal 1 0 true  (ComputeMultCoefADC1410 (adcal.cal 1 0 0) false),
    .coefVal 1 0 false (ComputeAddCoefADC1410 (adcal.cal 1 0 1) false),
    .coefVal 1 1 true  (ComputeMultCoefADC1410 (adcal.cal 1 1 0) true),
    .coefVal 1 1 false (ComputeAddCoefADC1410 (adcal.cal 1 1 1) true) ]

/-- The block of lines `FDisplayZmodADCCal` prints for one successfully read
record: the timestamp line when `strftime` returned nonzero, then the eight
raw lines, then the eight coefficient lines. -/
def regionLines (strftimeOk : ℕ → Bool) (fUser : Bool) (adcal : ZMOD_ADC_CAL) : List CalLine :=
  (if strftimeOk adcal.date then [CalLine.calDate fUser adcal.date] else [])
    ++ rawLines adcal ++ coefLines adcal

/-- Shallow embedding of `FDisplayZmodADCCal` from ZmodADC.c with its effects
made explicit: `SyzygyI2cRead` is the bus collaborator keyed by region start
address, `strftimeOk` tells whether `strftime` succeeds on a given raw date,
and `dpmutilfVerbose` is the process-wide verbosity flag that ZmodADC.c
declares `extern` but never reads (it is correspondingly unused here).  The
result is the C function's BOOL return value paired with the lines printed to
stdout, in order.  Note the C code returns `fFalse` immediately when the
factory-region read fails, without attempting the user region. -/
def FDisplayZmodADCCal (dpmutilfVerbose : Bool) (strftimeOk : ℕ → Bool)
    (SyzygyI2cRead : ℕ → I2cReadResult) (addrI2cSlave : ℕ) : Bool × List CalLine :=
  match SyzygyI2cRead addrAdcFactCalStart with
  | .fail cbRead =>
      (false, [.errReadFail false addrI2cSlave, .errBytes cbRead sizeofZMOD_ADC_CAL])
  | .ok adcal =>
      match SyzygyI2cRead addrAdcUserCalStart with
      | .fail cbRead =>
          (false, regionLines strftimeOk false adcal
            ++ [.errReadFail true addrI2cSlave, .errBytes cbRead sizeofZMOD_ADC_CAL])
      | .ok adcal2 =>
          (true, regionLines strftimeOk false adcal ++ regionLines strftimeOk true adcal2)

/-- Error taxonomy of the Calibration Reader (spec 7). -/
inductive CalError where
  | TransferIncomplete (expected received : ℕ)

/-- Modelled from the spec: `readCalibration` (spec 4.1), realized by
`SyzygyI2cRead` in syzygy.c which is not in src.  It performs exactly one bus
transfer for the fixed-size record; when the transport transfers fewer bytes
than the record size, the call fails with `TransferIncomplete (expected,
received)` and no record is produced.  The transport collaborator is
`transfer regionOffset = (data, bytesTransferred)` per spec 6. -/
def readCalibration (transfer : ℕ → ZMOD_ADC_CAL × ℕ) (regionOffset : ℕ) :
    Except CalError ZMOD_ADC_CAL :=
  let r := transfer regionOffset
  if r.2 < sizeofZMOD_ADC_CAL then
    .error (.TransferIncomplete sizeofZMOD_ADC_CAL r.2)
  else
    .ok r.1

/-- An all-zero calibration record, used to instantiate collaborators at
concrete inputs. -/
def zeroZmodAdcCal : ZMOD_ADC_CAL := ⟨0, fun _ _ _ => 0⟩

/-- C1: for every gain error and gain range selector, `ComputeMultCoefADC1410`
returns trunc(Ratio × (1 + gainError) × 2^16 + 0.5) reduced to the low 18
bits, with Ratio = 26.25/25.0 for low gain and 1.086/1.0 for high gain — the
source function coincides with the spec's formula. -/
theorem multCoef_eq_specFormula :
    ∀ (cg : ℚ) (b : Bool), ComputeMultCoefADC1410 cg b = specMultCoef cg b := by
  intro cg b
  cases b <;> rfl

/-- C2: for every offset error and gain range selector, `ComputeAddCoefADC1410`
returns trunc((offsetError / idealFullScale) × 2^17 + 0.5) reduced to the low
18 bits, with idealFullScale 25.0 for low gain and 1.0 for high gain, and no
actual/ideal trim ratio on the additive path — the source function coincides
with the spec's formula. -/
theorem addCoef_eq_specFormula :
    ∀ (ca : ℚ) (b : Bool), ComputeAddCoefADC1410 ca b = specAddCoef ca b := by
  intro ca b
  cases b <;> rfl

/-- C3 counterexample: the spec's known-value table is wrong on the high-gain
multiplicative entry and on the low-gain hexadecimal rendering.  The code
yields 71172 at gain error 0.0 with high gain, not the claimed 71197, and the
low-gain result 68813 is not the claimed 0x10C8D (= 68749). -/
theorem multCoef_knownValues_spec_false :
    ComputeMultCoefADC1410 0 true = 71172 ∧ (71172 : ℤ) ≠ 71197 ∧
    ComputeMultCoefADC1410 0 false = 68813 ∧ (68813 : ℤ) ≠ 0x10C8D := by
  refine ⟨?_, by norm_num, ?_, by norm_num⟩ <;>
    norm_num [ComputeMultCoefADC1410, ivalMultADC1410, fvalMultADC1410, cIntCast,
      ADC1410_REAL_RANGE_ADC_HIGH, ADC1410_IDEAL_RANGE_ADC_HIGH,
      ADC1410_REAL_RANGE_ADC_LOW, ADC1410_IDEAL_RANGE_ADC_LOW]

/-- C3 amended: at gain/offset error 0.0 the multiplicative coefficient is
68813 (0x10CCD) for low gain and 71172 (0x11604) for high gain, and the
additive coefficient is 0 (0x00000) for both gain ranges. -/
theorem multCoef_addCoef_knownValues :
    (ComputeMultCoefADC1410 0 false = 68813 ∧ (68813 : ℤ) = 0x10CCD) ∧
    (ComputeMultCoefADC1410 0 true = 71172 ∧ (71172 : ℤ) = 0x11604) ∧
    (∀ b : Bool, ComputeAddCoefADC1410 0 b = 0) := by
  refine ⟨⟨?_, by norm_num⟩, ⟨?_, by norm_num⟩, ?_⟩
  · norm_num [ComputeMultCoefADC1410, ivalMultADC1410, fvalMultADC1410, cIntCast,
      ADC1410_REAL_RANGE_ADC_LOW, ADC1410_IDEAL_RANGE_ADC_LOW]
  · norm_num [ComputeMultCoefADC1410, ivalMultADC1410, fvalMultADC1410, cIntCast,
      ADC1410_REAL_RANGE_ADC_HIGH, ADC1410_IDEAL_RANGE_ADC_HIGH]
  · intro b
    cases b <;>
      norm_num [ComputeAddCoefADC1410, ivalAddADC1410, fvalAddADC1410, cIntCast,
        ADC1410_IDEAL_RANGE_ADC_HIGH, ADC1410_IDEAL_RANGE_ADC_LOW]

/-- C4: for every input and either gain range, both coefficient functions
return a value in [0, 0x3FFFF]; no bit above position 17 is ever set and the
functions are total. -/
theorem coef_bitWidth_invariant (x : ℚ) (b : Bool) :
    (0 ≤ ComputeMultCoefADC1410 x b ∧ ComputeMultCoefADC1410 x b ≤ 0x3FFFF) ∧
    (0 ≤ ComputeAddCoefADC1410 x b ∧ ComputeAddCoefADC1410 x b ≤ 0x3FFFF) := by
  simp only [ComputeMultCoefADC1410, ComputeAddCoefADC1410]
  have h : (2 : ℤ) ^ 18 = 262144 := by norm_num
  rw [h]
  omega

/-- C5: when the multiplicative pre-round scaled value is exactly X.5 for a
non-negative integer X, the result before masking is X + 1 — the rounding is
add-0.5-then-truncate (round half up), not banker's rounding. -/
theorem multCoef_rounds_half_up (cg : ℚ) (b : Bool) (X : ℕ)
    (h : fvalMultADC1410 cg b = X + 1 / 2) :
    ivalMultADC1410 cg b = X + 1 := by
  simp only [ivalMultADC1410, cIntCast, h]
  rw [if_neg (not_lt.mpr (by positivity))]
  have hq : (X : ℚ) + 1 / 2 + 1 / 2 = ((X + 1 : ℕ) : ℚ) := by push_cast; ring
  rw [hq, Int.floor_natCast]
  push_cast
  ring

/-- C5 witness: at gain error -688123/688128 with low gain the scaled value is
exactly 0.5 and the pre-mask result is 1. -/
theorem multCoef_rounds_half_up_witness :
    fvalMultADC1410 (-688123 / 688128) false = (0 : ℕ) + 1 / 2 ∧
    ivalMultADC1410 (-688123 / 688128) false = (0 : ℕ) + 1 :=
  ⟨by norm_num [fvalMultADC1410, ADC1410_REAL_RANGE_ADC_LOW, ADC1410_IDEAL_RANGE_ADC_LOW],
   multCoef_rounds_half_up (-688123 / 688128) false 0
     (by norm_num [fvalMultADC1410, ADC1410_REAL_RANGE_ADC_LOW, ADC1410_IDEAL_RANGE_ADC_LOW])⟩

/-- C6: the additive path rounds by the same +0.5-then-truncate-toward-zero
rule, so for every offset error whose scaled value lies strictly between -1.5
and 0 the function returns 0, not the 18-bit encoding of -1 (0x3FFFF). -/
theorem addCoef_negative_small_is_zero (ca : ℚ) (b : Bool)
    (h1 : -(3 / 2) < fvalAddADC1410 ca b) (h2 : fvalAddADC1410 ca b < 0) :
    ComputeAddCoefADC1410 ca b = 0 ∧ ComputeAddCoefADC1410 ca b ≠ 0x3FFFF := by
  have hz : ivalAddADC1410 ca b = 0 := by
    simp only [ivalAddADC1410, cIntCast]
    by_cases hc : fvalAddADC1410 ca b + 1 / 2 < 0
    · rw [if_pos hc]
      refine Int.ceil_eq_iff.mpr ⟨?_, ?_⟩ <;> push_cast <;> linarith
    · rw [if_neg hc]
      refine Int.floor_eq_iff.mpr ⟨?_, ?_⟩ <;> push_cast <;> linarith
  refine ⟨?_, ?_⟩ <;> simp [ComputeAddCoefADC1410, hz]

/-- C6 witness: at offset error -1/131072 with high gain the scaled value is
exactly -1, strictly between -1.5 and 0, and the function returns 0. -/
theorem addCoef_negative_small_is_zero_witness :
    (-(3 / 2) < fvalAddADC1410 (-1 / 131072) true ∧ fvalAddADC1410 (-1 / 131072) true < 0) ∧
    (ComputeAddCoefADC1410 (-1 / 131072) true = 0 ∧
      ComputeAddCoefADC1410 (-1 / 131072) true ≠ 0x3FFFF) :=
  ⟨⟨by norm_num [fvalAddADC1410, ADC1410_IDEAL_RANGE_ADC_HIGH],
    by norm_num [fvalAddADC1410, ADC1410_IDEAL_RANGE_ADC_HIGH]⟩,
   addCoef_negative_small_is_zero (-1 / 131072) true
     (by norm_num [fvalAddADC1410, ADC1410_IDEAL_RANGE_ADC_HIGH])
     (by norm_num [fvalAddADC1410, ADC1410_IDEAL_RANGE_ADC_HIGH])⟩

/-- C7 counterexample: the regions are not attempted independently.  With a
factory-region read that fails (0 bytes) and a user-region read that would
succeed, `FDisplayZmodADCCal` emits only the two factory failure lines and
returns false — the report contains none of the 16 user-region lines the
claim promises. -/
theorem display_factoryFail_blocks_user :
    FDisplayZmodADCCal false (fun _ => true)
      (fun a => if a = addrAdcFactCalStart then .fail 0 else .ok zeroZmodAdcCal) 0x30
      = (false, [.errReadFail false 0x30, .errBytes 0 sizeofZMOD_ADC_CAL]) := by
  rfl

/-- C7 amended: a factory-region read failure terminates the report: the
function prints the factory failure notice (with the byte counts) and returns
false immediately, producing no raw or coefficient lines for either region,
even when the user-region read would succeed. -/
theorem display_factoryFail_returns_early (v : Bool) (strftimeOk : ℕ → Bool)
    (i2c : ℕ → I2cReadResult) (addr cb : ℕ)
    (h : i2c addrAdcFactCalStart = .fail cb) :
    FDisplayZmodADCCal v strftimeOk i2c addr
      = (false, [.errReadFail false addr, .errBytes cb sizeofZMOD_ADC_CAL]) := by
  simp only [FDisplayZmodADCCal, h]

/-- C7 amended, witness: concrete collaborators with a failing factory read
(7 bytes) and a succeeding user read. -/
theorem display_factoryFail_returns_early_witness :
    FDisplayZmodADCCal true (fun _ => true)
      (fun a => if a = addrAdcFactCalStart then .fail 7 else .ok zeroZmodAdcCal) 0x31
      = (false, [.errReadFail false 0x31, .errBytes 7 sizeofZMOD_ADC_CAL]) :=
  display_factoryFail_returns_early true (fun _ => true)
    (fun a => if a = addrAdcFactCalStart then .fail 7 else .ok zeroZmodAdcCal) 0x31 7 rfl

/-- C8: whenever the transport transfers fewer bytes than the record size,
`readCalibration` fails with `TransferIncomplete` carrying the exact expected
and received byte counts, and no record (not even a partial one) is
produced. -/
theorem readCalibration_transferIncomplete (transfer : ℕ → ZMOD_ADC_CAL × ℕ)
    (regionOffset : ℕ) (h : (transfer regionOffset).2 < sizeofZMOD_ADC_CAL) :
    readCalibration transfer regionOffset
        = .error (.TransferIncomplete sizeofZMOD_ADC_CAL (transfer regionOffset).2) ∧
      ∀ adcal, readCalibration transfer regionOffset ≠ .ok adcal := by
  refine ⟨?_, ?_⟩
  · simp [readCalibration, h]
  · intro adcal
    simp [readCalibration, h]

/-- C8 witness: a transport that transfers 5 of the expected bytes makes
`readCalibration` fail with `TransferIncomplete (sizeofZMOD_ADC_CAL, 5)`. -/
theorem readCalibration_transferIncomplete_witness :
    readCalibration (fun _ => (zeroZmodAdcCal, 5)) addrAdcFactCalStart
        = .error (.TransferIncomplete sizeofZMOD_ADC_CAL 5) ∧
      ∀ adcal, readCalibration (fun _ => (zeroZmodAdcCal, 5)) addrAdcFactCalStart ≠ .ok adcal :=
  readCalibration_transferIncomplete (fun _ => (zeroZmodAdcCal, 5)) addrAdcFactCalStart
    (by norm_num [sizeofZMOD_ADC_CAL])

/-- C9: both coefficient functions are pure Lean functions of their arguments
in this embedding — two calls with identical arguments return identical
results. -/
theorem coef_deterministic (cg₁ cg₂ : ℚ) (b₁ b₂ : Bool)
    (hg : cg₁ = cg₂) (hb : b₁ = b₂) :
    ComputeMultCoefADC1410 cg₁ b₁ = ComputeMultCoefADC1410 cg₂ b₂ ∧
    ComputeAddCoefADC1410 cg₁ b₁ = ComputeAddCoefADC1410 cg₂ b₂ := by
  subst hg
  subst hb
  exact ⟨rfl, rfl⟩

/-- C9 witness: instantiated at gain error 1 with high gain. -/
theorem coef_deterministic_witness :
    ComputeMultCoefADC1410 1 true = ComputeMultCoefADC1410 1 true ∧
    ComputeAddCoefADC1410 1 true = ComputeAddCoefADC1410 1 true :=
  coef_deterministic 1 1 true true rfl rfl

/-- C10: the `extern` flag `dpmutilfVerbose` is never read by ZmodADC.c: the
entire report of `FDisplayZmodADCCal` (return value and every printed line,
hence every coefficient computed inside it) is identical across any two runs
that differ only in that flag. -/
theorem display_verbose_noninterference :
    ∀ (v₁ v₂ : Bool) (strftimeOk : ℕ → Bool) (i2c : ℕ → I2cReadResult) (addr : ℕ),
      FDisplayZmodADCCal v₁ strftimeOk i2c addr = FDisplayZmodADCCal v₂ strftimeOk i2c addr := by
  intro v₁ v₂ strftimeOk i2c addr
  rfl
